import Mathlib

/-!
# Bootstrap of the items API (`backend/server.js`)

A shallow embedding of the start-up script and of the Express application it
builds.  The script is straight-line JavaScript:

```
require express, cors, dotenv, ./src/config/db, ./src/routes/items
dotenv.config()
app = express()
connectDB()
app.use(cors())
app.use(express.json())
app.use('/api/items', itemsRoutes)
PORT = process.env.PORT || 5000
app.listen(PORT, callback)
```

The packages and the two local modules it requires are not part of the file;
their behaviour enters the model through the record `Libs`.
-/

namespace Server

/-! ## JavaScript values and the process environment -/

/-- The JavaScript values the script manipulates. -/
inductive JSVal where
  | undefined
  | str (s : String)
  | num (n : Nat)
  deriving DecidableEq, Repr

/-- JavaScript truthiness: `undefined`, the empty string and `0` are falsy. -/
def JSVal.truthy : JSVal → Bool
  | .undefined => false
  | .str s => decide (s ≠ "")
  | .num n => decide (n ≠ 0)

/-- The operator `a || b`: the left operand when it is truthy, else the right one. -/
def jsOr (a b : JSVal) : JSVal :=
  if a.truthy then a else b

/-- Template-literal rendering of a value, as in `${PORT}`. -/
def JSVal.render : JSVal → String
  | .undefined => "undefined"
  | .str s => s
  | .num n => toString n

/-- The variables of `process.env`: names bound to strings. -/
abbrev Env := List (String × String)

/-- Reading `process.env.NAME`: the string bound to the name, or `undefined`. -/
def envGet (env : Env) (name : String) : JSVal :=
  match env.lookup name with
  | some v => .str v
  | none => .undefined

/-- Whether a variable is set in the environment. -/
def envHas (env : Env) (name : String) : Bool :=
  (env.lookup name).isSome

/-- The constant `PORT`, the value of `process.env.PORT || 5000`. -/
def PORT (env : Env) : JSVal :=
  jsOr (envGet env "PORT") (.num 5000)

/-! ## Requests, responses and middleware -/

/-- An incoming HTTP request; `path` is the path part of the URL. -/
structure Request where
  method : String
  path : String
  headers : List (String × String)
  body : String
  deriving DecidableEq, Repr

/-- The response under construction. -/
structure Response where
  status : Nat
  headers : List (String × String)
  body : String
  deriving DecidableEq, Repr

/-- The response object a request starts with. -/
def Response.fresh : Response := ⟨200, [], ""⟩

/-- What a middleware does with a request: hand it on with `next()`, or stop
the chain (it answered the request, or reported an error). -/
inductive MwResult where
  | next (req : Request) (res : Response)
  | done (res : Response)
  deriving DecidableEq, Repr

/-- A middleware function. -/
abbrev Middleware := Request → Response → MwResult

/-- Options accepted by the `cors` factory: an origin allow-list (absent means
any origin), and how a preflight request is finished. -/
structure CorsOptions where
  origin : Option (List String)
  preflightContinue : Bool
  optionsSuccessStatus : Nat
  deriving DecidableEq, Repr

/-- The handlers the script hands to `app.use`, each recorded with the
arguments of the call that built it. -/
inductive Handler where
  | cors (opts : Option CorsOptions)
  | json
  | itemsRoutes
  deriving DecidableEq, Repr

/-- One entry of the application's middleware stack: mount path and handler. -/
abbrev Layer := String × Handler

/-! ## The collaborators -/

/-- How the call `connectDB()` ends, as seen from the script. -/
inductive ConnectOutcome where
  /-- the call throws: the attempt failed and the exception reaches the script -/
  | throws
  /-- the call returns with the connection established -/
  | returnsConnected
  /-- the call returns after a failure it handled itself -/
  | returnsFailed
  /-- the call returns while the attempt is in flight (a promise); it settles
  once the script has run to its end, `ok` telling how -/
  | returnsPending (ok : Bool)
  deriving DecidableEq, Repr

/-- Behaviour of what the script requires: `dotenv`, `./src/config/db`, `cors`,
`express.json` and `./src/routes/items`. -/
structure Libs where
  dotenvConfig : Env → Env
  connectDB : Env → ConnectOutcome
  cors : Option CorsOptions → Middleware
  json : Middleware
  itemsRoutes : Middleware

/-- The middleware function behind a stack entry. -/
def Libs.run (L : Libs) : Handler → Middleware
  | .cors opts => L.cors opts
  | .json => L.json
  | .itemsRoutes => L.itemsRoutes

/-! ## The start-up script -/

/-- What happens during a run, in order. -/
inductive Event where
  | required (module : String) (env : Env)
  | dotenvConfig
  | expressCreated
  | connectCalled (env : Env)
  | connectEstablished
  | connectFailed
  | uncaught
  | used (mount : String) (h : Handler)
  | portRead (env : Env) (port : JSVal)
  | listenCalled (port : JSVal)
  | handled (h : Handler)
  deriving DecidableEq, Repr

/-- State of the process while the script runs. -/
structure Proc where
  env : Env
  stack : List Layer
  trace : List Event
  listenPort : Option JSVal
  onListening : Option String
  inFlight : Option Bool
  deriving DecidableEq, Repr

/-- The process before the first statement. -/
def Proc.start (env : Env) : Proc := ⟨env, [], [], none, none, none⟩

/-- Appends events to the trace. -/
def Proc.emit (p : Proc) (es : List Event) : Proc :=
  { p with trace := p.trace ++ es }

/-- Loading a module with `require`: it is evaluated under the current environment. -/
def Proc.require (p : Proc) (module : String) : Proc :=
  p.emit [.required module p.env]

/-- The statement `dotenv.config()`. -/
def Proc.dotenvConfig (L : Libs) (p : Proc) : Proc :=
  { p with env := L.dotenvConfig p.env, trace := p.trace ++ [.dotenvConfig] }

/-- The statement `const app = express()`: an application with an empty stack. -/
def Proc.express (p : Proc) : Proc :=
  { p with stack := [], trace := p.trace ++ [.expressCreated] }

/-- The statement `connectDB()`. Its value is discarded; `Except.error` is the
state in which an exception leaves the script. -/
def Proc.connectDB (L : Libs) (p : Proc) : Except Proc Proc :=
  let p := p.emit [.connectCalled p.env]
  match L.connectDB p.env with
  | .throws => .error (p.emit [.connectFailed, .uncaught])
  | .returnsConnected => .ok (p.emit [.connectEstablished])
  | .returnsFailed => .ok (p.emit [.connectFailed])
  | .returnsPending ok => .ok { p with inFlight := some ok }

/-- The call `app.use(path, handler)`; `app.use(handler)` mounts at `/`. -/
def Proc.use (p : Proc) (mount : String) (h : Handler) : Proc :=
  { p with stack := p.stack ++ [(mount, h)], trace := p.trace ++ [.used mount h] }

/-- The call `app.listen(port, callback)`, the callback logging the port. -/
def Proc.listen (p : Proc) (port : JSVal) : Proc :=
  { p with
    listenPort := some port
    onListening := some ("Server running on port " ++ port.render)
    trace := p.trace ++ [.listenCalled port] }

/-- After the script: a connection attempt still in flight settles. -/
def Proc.settle (p : Proc) : Proc :=
  match p.inFlight with
  | some true => { p with inFlight := none, trace := p.trace ++ [.connectEstablished] }
  | some false => { p with inFlight := none, trace := p.trace ++ [.connectFailed] }
  | none => p

/-- The script `server.js`, statement by statement, followed by the settling
of a pending connection attempt. -/
def bootstrap (L : Libs) (env0 : Env) : Proc :=
  let p := Proc.start env0
  let p := p.require "express"
  let p := p.require "cors"
  let p := p.require "dotenv"
  let p := p.require "./src/config/db"
  let p := p.require "./src/routes/items"
  let p := p.dotenvConfig L
  let p := p.express
  match p.connectDB L with
  | .error p => p
  | .ok p =>
    let p := p.use "/" (.cors none)
    let p := p.use "/" .json
    let p := p.use "/api/items" .itemsRoutes
    let port := PORT p.env
    let p := p.emit [.portRead p.env port]
    let p := p.listen port
    p.settle

/-! ## Request dispatch -/

/-- ASCII lower-casing of a path, as the case-insensitive route matching of
Express compares it. -/
def lowerPath (s : String) : List Char :=
  s.toList.map Char.toLower

/-- Whether a layer mounted with `app.use(mount, …)` receives a path. The
application is created with default settings, so matching ignores letter case
and a trailing slash; a mount matches the path itself and everything below it,
and the mount `/` matches every path. -/
def mountMatches (mount path : String) : Bool :=
  if mount = "/" then true
  else lowerPath path = lowerPath mount
    || (lowerPath mount ++ ['/']).isPrefixOf (lowerPath path)

/-- The answer of Express when no layer finishes the request. -/
def finalHandler (res : Response) : Response :=
  { res with status := 404 }

/-- A request walks the stack in registration order. The result lists the
handlers that ran, each with the request it was given, and the response. -/
def dispatch (L : Libs) : List Layer → Request → Response → List (Handler × Request) × Response
  | [], _, res => ([], finalHandler res)
  | (mount, h) :: rest, req, res =>
    if mountMatches mount req.path then
      match L.run h req res with
      | .next req1 res1 =>
        let out := dispatch L rest req1 res1
        ((h, req) :: out.1, out.2)
      | .done res1 => ([(h, req)], res1)
    else dispatch L rest req res

/-- The handlers that ran for a request entering the application of a process. -/
def visited (L : Libs) (p : Proc) (req : Request) : List Handler :=
  (dispatch L p.stack req Response.fresh).1.map Prod.fst

/-- The request as handed to the items router, when it gets there. -/
def routerInput (L : Libs) (p : Proc) (req : Request) : Option Request :=
  ((dispatch L p.stack req Response.fresh).1.find? (fun hr => hr.1 = Handler.itemsRoutes)).map Prod.snd

/-- Serving a sequence of requests: a process that is not listening serves none. -/
def serve (L : Libs) (p : Proc) (reqs : List Request) : List Event :=
  match p.listenPort with
  | none => []
  | some _ => reqs.flatMap (fun req => (visited L p req).map Event.handled)

/-- A whole run: start-up followed by the requests the server receives. -/
def runTrace (L : Libs) (env0 : Env) (reqs : List Request) : List Event :=
  (bootstrap L env0).trace ++ serve L (bootstrap L env0) reqs

/-! ## The packages, as published -/

/-- The `cors` package. Without options it allows any origin (`*`), answers a
preflight (`OPTIONS`) request itself with status 204, and hands every other
request on. With an allow-list, the request's origin is echoed when listed. -/
def corsPackage (opts : Option CorsOptions) : Middleware := fun req res =>
  let o : CorsOptions := opts.getD ⟨none, false, 204⟩
  let allow : List (String × String) :=
    match o.origin with
    | none => [("Access-Control-Allow-Origin", "*")]
    | some allowed =>
      match req.headers.lookup "Origin" with
      | some origin =>
        if origin ∈ allowed then
          [("Access-Control-Allow-Origin", origin), ("Vary", "Origin")]
        else [("Vary", "Origin")]
      | none => [("Vary", "Origin")]
  if req.method = "OPTIONS" then
    let res1 : Response :=
      { res with headers := res.headers ++ allow
          ++ [("Access-Control-Allow-Methods", "GET,HEAD,PUT,PATCH,POST,DELETE")] }
    if o.preflightContinue then .next req res1
    else .done { res1 with status := o.optionsSuccessStatus,
                           headers := res1.headers ++ [("Content-Length", "0")] }
  else .next req { res with headers := res.headers ++ allow }

/-- The `dotenv` package with its default settings: variables of the `.env`
file are added, those already set in the environment keep their value. -/
def dotenvPackage (file : Env) (env : Env) : Env :=
  env ++ file.filter (fun kv => !envHas env kv.1)

/-- A deployment used for concrete runs: the published `cors`, the published
`dotenv` reading the given `.env` file, a connector ending in the given way, a
body parser that hands every request on unchanged (as `express.json` does with
a request that has no body) and a router that answers every request. -/
def sampleLibs (file : Env) (outcome : ConnectOutcome) : Libs where
  dotenvConfig := dotenvPackage file
  connectDB := fun _ => outcome
  cors := corsPackage
  json := fun req res => .next req res
  itemsRoutes := fun _ res => .done res

/-- A request without headers or body. -/
def plainRequest (method path : String) : Request :=
  ⟨method, path, [], ""⟩

/-- The response a middleware leaves behind, whether it handed the request on or not. -/
def MwResult.response : MwResult → Response
  | .next _ res => res
  | .done res => res

/-! ## Summaries of a start-up run -/

/-- Events of the statements up to and including the call of `connectDB`. -/
def openingTrace (L : Libs) (env0 : Env) : List Event :=
  [ .required "express" env0, .required "cors" env0, .required "dotenv" env0,
    .required "./src/config/db" env0, .required "./src/routes/items" env0,
    .dotenvConfig, .expressCreated, .connectCalled (L.dotenvConfig env0) ]

/-- Events of the statements after the call of `connectDB`, under environment `env`. -/
def closingTrace (env : Env) : List Event :=
  [ .used "/" (.cors none), .used "/" .json, .used "/api/items" .itemsRoutes,
    .portRead env (PORT env), .listenCalled (PORT env) ]

/-- Whether an event is a call of `connectDB`. -/
def Event.isConnectCall : Event → Bool
  | .connectCalled _ => true
  | _ => false

/-- Whether an event is the handling of a request by some layer. -/
def Event.isHandled : Event → Bool
  | .handled _ => true
  | _ => false

/-- The stack the script registers. -/
def registeredStack : List Layer :=
  [("/", .cors none), ("/", .json), ("/api/items", .itemsRoutes)]

end Server

/-!
# The items resource handler

The routes module `./src/routes/items` and the connector `./src/config/db` are
required by the script but are not among the source files. The handler below
follows the written specification of the five operations.
-/

namespace Items

/-- Modelled from the spec: the values of the free-form attributes of an Item
(§3); the module defining the Item schema is missing. -/
inductive Json where
  | null
  | bool (b : Bool)
  | num (n : Int)
  | str (s : String)
  deriving DecidableEq, Repr

/-- Modelled from the spec: a request body, the fields a client supplies at
creation or update time (§3, §4.2); the schema module is missing. -/
abbrev Fields := List (String × Json)

/-- Modelled from the spec: the Item entity of §3, an identifier assigned by
the persistence layer together with the client's fields; the schema module is
missing. -/
structure Item where
  id : String
  fields : Fields
  deriving DecidableEq, Repr

/-- Modelled from the spec: identifiers are opaque (§3), so their format is a
parameter: which strings are structurally valid, and which identifier the
persistence layer assigns to the n-th Item created. Assigned identifiers are
well formed and never repeat ("never reassigned or reused"). The persistence
layer is missing from the source files. -/
structure IdScheme where
  wellFormed : String → Bool
  assign : Nat → String
  assign_wellFormed : ∀ n, wellFormed (assign n) = true
  assign_injective : ∀ m n, assign m = assign n → m = n

/-- Modelled from the spec: the persistence store of §3 and §4.1, sole owner of
the Items, in insertion order; `reachable` tells whether it answers, `issued`
counts the identifiers assigned so far. The connector module is missing. -/
structure Store where
  reachable : Bool
  items : List Item
  issued : Nat
  deriving DecidableEq, Repr

/-- Modelled from the spec: the store at process start, reachable and empty. -/
def Store.empty : Store := ⟨true, [], 0⟩

/-- Modelled from the spec: the persistence actions of §4.2, one per operation;
the routes module issuing them is missing. -/
inductive StoreCall where
  | findAll
  | findById (id : String)
  | insert (fields : Fields)
  | updateById (id : String) (fields : Fields)
  | deleteById (id : String)
  deriving DecidableEq, Repr

/-- Modelled from the spec: the five operations of the table in §4.2 and §6
(`GET /api/items`, `GET /api/items/:id`, `POST /api/items`,
`PUT/PATCH /api/items/:id`, `DELETE /api/items/:id`); the routes module is
missing. -/
inductive Op where
  | list
  | get (id : String)
  | create (body : Fields)
  | update (id : String) (body : Fields)
  | delete (id : String)
  deriving DecidableEq, Repr

/-- Modelled from the spec: the JSON body of a response (§4.2): a sequence of
Items, one Item, or an object carrying a message. -/
inductive Body where
  | items (all : List Item)
  | item (it : Item)
  | message (text : String)
  deriving DecidableEq, Repr

/-- Modelled from the spec: what handling one request yields: status code,
body, the store afterwards and the persistence calls issued. -/
structure Outcome where
  status : Nat
  body : Body
  store : Store
  calls : List StoreCall
  deriving DecidableEq, Repr

/-- Modelled from the spec: the required field of §3, `name`, must be present
and be a string ("required string"; "missing required field(s) → 400"). -/
def hasRequired (body : Fields) : Bool :=
  match body.lookup "name" with
  | some (.str _) => true
  | _ => false

/-- Modelled from the spec: update "changes exactly the fields present in P'
and leaves others untouched" (§8): present fields are overwritten, new ones
are added. -/
def mergeFields (old new : Fields) : Fields :=
  old.map (fun kv => match new.lookup kv.1 with
    | some v => (kv.1, v)
    | none => kv)
  ++ new.filter (fun kv => (old.lookup kv.1).isNone)

/-- Modelled from the spec: the Item stored under an identifier, if any. -/
def Store.find (s : Store) (id : String) : Option Item :=
  s.items.find? (fun it => it.id = id)

/-- Modelled from the spec: the handler of §4.2, which is in the missing module
`./src/routes/items`. Validation comes first (400, no persistence call); then
exactly one persistence action is issued; an unreachable store gives 500, an
unknown identifier 404; List and Get answer 200, Create 201, Update 200, and
Delete 200 with the deleted Item (the spec allows 200 or 204). -/
def handle (sch : IdScheme) (op : Op) (s : Store) : Outcome :=
  match op with
  | .list =>
    if s.reachable then ⟨200, .items s.items, s, [.findAll]⟩
    else ⟨500, .message "Server error", s, [.findAll]⟩
  | .get id =>
    if !sch.wellFormed id then ⟨400, .message "Invalid id", s, []⟩
    else if !s.reachable then ⟨500, .message "Server error", s, [.findById id]⟩
    else match s.find id with
      | some it => ⟨200, .item it, s, [.findById id]⟩
      | none => ⟨404, .message "Item not found", s, [.findById id]⟩
  | .create body =>
    if !hasRequired body then ⟨400, .message "Name is required", s, []⟩
    else if !s.reachable then ⟨500, .message "Server error", s, [.insert body]⟩
    else
      let it : Item := ⟨sch.assign s.issued, body⟩
      ⟨201, .item it, { s with items := s.items ++ [it], issued := s.issued + 1 },
        [.insert body]⟩
  | .update id body =>
    if !sch.wellFormed id then ⟨400, .message "Invalid id", s, []⟩
    else if !s.reachable then ⟨500, .message "Server error", s, [.updateById id body]⟩
    else match s.find id with
      | some it =>
        let it1 : Item := { it with fields := mergeFields it.fields body }
        ⟨200, .item it1,
          { s with items := s.items.map (fun x => if x.id = id then
              { x with fields := mergeFields x.fields body } else x) },
          [.updateById id body]⟩
      | none => ⟨404, .message "Item not found", s, [.updateById id body]⟩
  | .delete id =>
    if !sch.wellFormed id then ⟨400, .message "Invalid id", s, []⟩
    else if !s.reachable then ⟨500, .message "Server error", s, [.deleteById id]⟩
    else match s.find id with
      | some it =>
        ⟨200, .item it, { s with items := s.items.filter (fun x => x.id ≠ id) },
          [.deleteById id]⟩
      | none => ⟨404, .message "Item not found", s, [.deleteById id]⟩

/-- Modelled from the spec: what can happen to the store between process start
and a request: earlier requests, and the store becoming unreachable or
reachable again (§4.2, "store unreachable"). -/
inductive Step where
  | request (op : Op)
  | outage
  | recovery
  deriving DecidableEq, Repr

/-- Modelled from the spec: effect of one step on the store. -/
def Store.step (sch : IdScheme) (s : Store) : Step → Store
  | .request op => (handle sch op s).store
  | .outage => { s with reachable := false }
  | .recovery => { s with reachable := true }

/-- Modelled from the spec: the store after a history of steps, starting empty. -/
def Store.after (sch : IdScheme) (history : List Step) : Store :=
  history.foldl (Store.step sch) Store.empty

/-- Every stored Item carries an identifier assigned earlier. -/
def Store.Sound (sch : IdScheme) (s : Store) : Prop :=
  ∀ it ∈ s.items, ∃ k, k < s.issued ∧ it.id = sch.assign k

/-- An identifier scheme for concrete runs: identifiers are the non-empty runs
of the digit `1`, the n-th Item getting `n + 1` of them. -/
def tallyIds : IdScheme where
  wellFormed := fun id => decide (id.toList ≠ []) && id.toList.all (fun c => c = '1')
  assign := fun n => String.mk (List.replicate (n + 1) '1')
  assign_wellFormed := by
    intro n
    simp [List.replicate_succ]
  assign_injective := by
    intro m n h
    have := congrArg (fun t : String => t.toList.length) h
    simpa using this

end Items

/-!
# Properties of the bootstrap
-/

namespace Server

/-! ## Shape of a start-up run -/

theorem bootstrap_throws (L : Libs) (env0 : Env)
    (h : L.connectDB (L.dotenvConfig env0) = .throws) :
    bootstrap L env0 =
      { env := L.dotenvConfig env0, stack := [],
        trace := openingTrace L env0 ++ [.connectFailed, .uncaught],
        listenPort := none, onListening := none, inFlight := none } := by
  simp [bootstrap, Proc.connectDB, Proc.express, Proc.dotenvConfig, Proc.require, Proc.emit,
    Proc.start, h, openingTrace]

theorem bootstrap_returnsConnected (L : Libs) (env0 : Env)
    (h : L.connectDB (L.dotenvConfig env0) = .returnsConnected) :
    bootstrap L env0 =
      { env := L.dotenvConfig env0, stack := registeredStack,
        trace := openingTrace L env0 ++ [.connectEstablished]
          ++ closingTrace (L.dotenvConfig env0),
        listenPort := some (PORT (L.dotenvConfig env0)),
        onListening := some ("Server running on port "
          ++ (PORT (L.dotenvConfig env0)).render),
        inFlight := none } := by
  simp [bootstrap, Proc.connectDB, Proc.express, Proc.dotenvConfig, Proc.require, Proc.emit,
    Proc.start, h, openingTrace, closingTrace, Proc.use, Proc.listen, Proc.settle,
    registeredStack]

theorem bootstrap_returnsFailed (L : Libs) (env0 : Env)
    (h : L.connectDB (L.dotenvConfig env0) = .returnsFailed) :
    bootstrap L env0 =
      { env := L.dotenvConfig env0, stack := registeredStack,
        trace := openingTrace L env0 ++ [.connectFailed]
          ++ closingTrace (L.dotenvConfig env0),
        listenPort := some (PORT (L.dotenvConfig env0)),
        onListening := some ("Server running on port "
          ++ (PORT (L.dotenvConfig env0)).render),
        inFlight := none } := by
  simp [bootstrap, Proc.connectDB, Proc.express, Proc.dotenvConfig, Proc.require, Proc.emit,
    Proc.start, h, openingTrace, closingTrace, Proc.use, Proc.listen, Proc.settle,
    registeredStack]

theorem bootstrap_returnsPending (L : Libs) (env0 : Env) (ok : Bool)
    (h : L.connectDB (L.dotenvConfig env0) = .returnsPending ok) :
    bootstrap L env0 =
      { env := L.dotenvConfig env0, stack := registeredStack,
        trace := openingTrace L env0 ++ closingTrace (L.dotenvConfig env0)
          ++ [if ok then .connectEstablished else .connectFailed],
        listenPort := some (PORT (L.dotenvConfig env0)),
        onListening := some ("Server running on port "
          ++ (PORT (L.dotenvConfig env0)).render),
        inFlight := none } := by
  cases ok <;>
  simp [bootstrap, Proc.connectDB, Proc.express, Proc.dotenvConfig, Proc.require, Proc.emit,
    Proc.start, h, openingTrace, closingTrace, Proc.use, Proc.listen, Proc.settle,
    registeredStack]

/-- The listen port and the stack of every run in which `connectDB()` returns. -/
theorem bootstrap_returns (L : Libs) (env0 : Env)
    (h : L.connectDB (L.dotenvConfig env0) ≠ .throws) :
    (bootstrap L env0).listenPort = some (PORT (L.dotenvConfig env0))
      ∧ (bootstrap L env0).stack = registeredStack := by
  cases hc : L.connectDB (L.dotenvConfig env0) with
  | throws => exact absurd hc h
  | returnsConnected => rw [bootstrap_returnsConnected L env0 hc]; exact ⟨rfl, rfl⟩
  | returnsFailed => rw [bootstrap_returnsFailed L env0 hc]; exact ⟨rfl, rfl⟩
  | returnsPending ok => rw [bootstrap_returnsPending L env0 ok hc]; exact ⟨rfl, rfl⟩

/-- The trace of every run starts with the same eight events. -/
theorem bootstrap_trace_opening (L : Libs) (env0 : Env) :
    ∃ rest, (bootstrap L env0).trace = openingTrace L env0 ++ rest
      ∧ rest.countP Event.isConnectCall = 0
      ∧ rest.countP Event.isHandled = 0 := by
  cases hc : L.connectDB (L.dotenvConfig env0) with
  | throws =>
    rw [bootstrap_throws L env0 hc]
    exact ⟨_, rfl, by decide, by decide⟩
  | returnsConnected =>
    rw [bootstrap_returnsConnected L env0 hc]
    exact ⟨_, List.append_assoc _ _ _, by simp [closingTrace, Event.isConnectCall],
      by simp [closingTrace, Event.isHandled]⟩
  | returnsFailed =>
    rw [bootstrap_returnsFailed L env0 hc]
    exact ⟨_, List.append_assoc _ _ _, by simp [closingTrace, Event.isConnectCall],
      by simp [closingTrace, Event.isHandled]⟩
  | returnsPending ok =>
    rw [bootstrap_returnsPending L env0 ok hc]
    refine ⟨_, List.append_assoc _ _ _, ?_, ?_⟩
    · cases ok <;> simp [closingTrace, Event.isConnectCall]
    · cases ok <;> simp [closingTrace, Event.isHandled]

/-- Serving requests produces handling events only. -/
theorem serve_no_connect (L : Libs) (p : Proc) (reqs : List Request) :
    (serve L p reqs).countP Event.isConnectCall = 0 := by
  rw [List.countP_eq_zero]
  intro e he
  unfold serve at he
  cases hp : p.listenPort with
  | none => simp [hp] at he
  | some port =>
    simp only [hp, List.mem_flatMap, List.mem_map] at he
    obtain ⟨_, _, h, _, rfl⟩ := he
    simp [Event.isConnectCall]

/-! ## Start-up order and the database connection -/

/-- C1 (counterexample): with a connector whose attempt is still in flight when
`connectDB()` returns and fails afterwards, the run contains a connection
failure and yet `app.listen` was called, on port 5000, before that failure. -/
theorem listening_when_connection_fails :
    Event.connectFailed ∈ (bootstrap (sampleLibs [] (.returnsPending false)) []).trace
      ∧ (bootstrap (sampleLibs [] (.returnsPending false)) []).listenPort = some (.num 5000)
      ∧ (bootstrap (sampleLibs [] (.returnsPending false)) []).trace.drop 11
          = [.portRead [] (.num 5000), .listenCalled (.num 5000), .connectFailed] := by
  decide

/-- C1 (amended): `app.listen` is skipped exactly when `connectDB()` throws. A
failure thrown into the script ends the run with no server listening; whenever
`connectDB()` returns, `app.listen` is called in the same run without waiting
for the connection, and a pending attempt that fails does so after the call of
`app.listen`. -/
theorem listen_iff_connectDB_returns (L : Libs) (env0 : Env) :
    ((bootstrap L env0).listenPort = none ↔ L.connectDB (L.dotenvConfig env0) = .throws)
      ∧ (L.connectDB (L.dotenvConfig env0) = .throws →
          Event.connectFailed ∈ (bootstrap L env0).trace
            ∧ ∀ port, Event.listenCalled port ∉ (bootstrap L env0).trace)
      ∧ (L.connectDB (L.dotenvConfig env0) ≠ .throws →
          Event.listenCalled (PORT (L.dotenvConfig env0)) ∈ (bootstrap L env0).trace)
      ∧ (L.connectDB (L.dotenvConfig env0) = .returnsPending false →
          ∃ pre, (bootstrap L env0).trace
            = pre ++ [.listenCalled (PORT (L.dotenvConfig env0)), .connectFailed]) := by
  refine ⟨?_, ?_, ?_, ?_⟩
  · constructor
    · intro hnone
      by_contra hne
      rw [(bootstrap_returns L env0 hne).1] at hnone
      exact absurd hnone (by simp)
    · intro hc
      rw [bootstrap_throws L env0 hc]
  · intro hc
    rw [bootstrap_throws L env0 hc]
    simp [openingTrace]
  · intro hne
    cases hc : L.connectDB (L.dotenvConfig env0) with
    | throws => exact absurd hc hne
    | returnsConnected => rw [bootstrap_returnsConnected L env0 hc]; simp [closingTrace]
    | returnsFailed => rw [bootstrap_returnsFailed L env0 hc]; simp [closingTrace]
    | returnsPending ok => rw [bootstrap_returnsPending L env0 ok hc]; simp [closingTrace]
  · intro hc
    rw [bootstrap_returnsPending L env0 false hc]
    refine ⟨openingTrace L env0 ++ (closingTrace (L.dotenvConfig env0)).take 4, ?_⟩
    simp [closingTrace]

/-- C1 (witness): a connector that throws leaves no server listening, and one
that returns a pending attempt has `app.listen` called. -/
theorem listen_iff_connectDB_returns_witness :
    (bootstrap (sampleLibs [] .throws) []).listenPort = none
      ∧ Event.connectFailed ∈ (bootstrap (sampleLibs [] .throws) []).trace
      ∧ Event.listenCalled (.num 5000)
          ∈ (bootstrap (sampleLibs [] (.returnsPending true)) []).trace :=
  ⟨(listen_iff_connectDB_returns (sampleLibs [] .throws) []).1.2 rfl,
    ((listen_iff_connectDB_returns (sampleLibs [] .throws) []).2.1 rfl).1,
    (listen_iff_connectDB_returns (sampleLibs [] (.returnsPending true)) []).2.2.1
      (by decide)⟩

/-- C6: in every run, whatever requests are served afterwards, `connectDB` is
called exactly once, and the call belongs to start-up: no request has been
handled before it and none of the events after it is another call. -/
theorem connectDB_called_once (L : Libs) (env0 : Env) (reqs : List Request) :
    (runTrace L env0 reqs).countP Event.isConnectCall = 1
      ∧ ∃ pre post, runTrace L env0 reqs
            = pre ++ Event.connectCalled (L.dotenvConfig env0) :: post
          ∧ pre.countP Event.isHandled = 0
          ∧ pre.countP Event.isConnectCall = 0
          ∧ post.countP Event.isConnectCall = 0 := by
  obtain ⟨rest, hrest, hc, _⟩ := bootstrap_trace_opening L env0
  have hs := serve_no_connect L (bootstrap L env0) reqs
  constructor
  · unfold runTrace
    rw [hrest, List.countP_append, List.countP_append, hc, hs]
    simp [openingTrace, Event.isConnectCall]
  · refine ⟨(openingTrace L env0).take 7, rest ++ serve L (bootstrap L env0) reqs, ?_, ?_, ?_, ?_⟩
    · unfold runTrace
      rw [hrest]
      simp [openingTrace]
    · simp [openingTrace, Event.isHandled]
    · simp [openingTrace, Event.isConnectCall]
    · rw [List.countP_append, hc, hs]

/-! ## The listen port -/

/-- Value of `process.env.PORT || 5000` by cases on the variable. -/
theorem PORT_cases (env : Env) :
    (env.lookup "PORT" = none → PORT env = .num 5000)
      ∧ (env.lookup "PORT" = some "" → PORT env = .num 5000)
      ∧ (∀ v, env.lookup "PORT" = some v → v ≠ "" → PORT env = .str v) := by
  refine ⟨?_, ?_, ?_⟩
  · intro h
    simp [PORT, envGet, h, jsOr, JSVal.truthy]
  · intro h
    simp [PORT, envGet, h, jsOr, JSVal.truthy]
  · intro v h hv
    simp [PORT, envGet, h, jsOr, JSVal.truthy, hv]

/-- C3 (counterexample): `PORT` is present in the environment, bound to the
empty string, and the port passed to `app.listen` is 5000, not the value read. -/
theorem present_empty_PORT_gives_default :
    envHas [("PORT", "")] "PORT" = true
      ∧ envGet (dotenvPackage [] [("PORT", "")]) "PORT" = .str ""
      ∧ (bootstrap (sampleLibs [] (.returnsPending true)) [("PORT", "")]).listenPort
          = some (.num 5000) := by
  decide

/-- C3 (amended): in every run that reaches `app.listen`, with `process.env`
taken as it stands after `dotenv.config()`: when `PORT` is absent the listen
port is the default 5000, and when `PORT` is present with a non-empty value the
listen port is that value. -/
theorem listenPort_default_or_env (L : Libs) (env0 : Env)
    (h : L.connectDB (L.dotenvConfig env0) ≠ .throws) :
    (envHas (L.dotenvConfig env0) "PORT" = false →
        (bootstrap L env0).listenPort = some (.num 5000))
      ∧ (∀ v, envGet (L.dotenvConfig env0) "PORT" = .str v → v ≠ "" →
        (bootstrap L env0).listenPort = some (.str v)) := by
  rw [(bootstrap_returns L env0 h).1]
  constructor
  · intro habs
    have hl : (L.dotenvConfig env0).lookup "PORT" = none := by
      unfold envHas at habs
      cases hlk : (L.dotenvConfig env0).lookup "PORT" with
      | none => rfl
      | some v => simp [hlk] at habs
    rw [(PORT_cases _).1 hl]
  · intro v hv hne
    have hl : (L.dotenvConfig env0).lookup "PORT" = some v := by
      unfold envGet at hv
      cases hlk : (L.dotenvConfig env0).lookup "PORT" with
      | none => simp [hlk] at hv
      | some w =>
        simp only [hlk, JSVal.str.injEq] at hv
        rw [hv]
    rw [(PORT_cases _).2.2 v hl hne]

/-- C3 (witness): without `PORT` the server listens on 5000; with `PORT=8080`
the value read, the string `8080`, is passed on. -/
theorem listenPort_default_or_env_witness :
    (bootstrap (sampleLibs [] (.returnsPending true)) []).listenPort = some (.num 5000)
      ∧ (bootstrap (sampleLibs [] (.returnsPending true)) [("PORT", "8080")]).listenPort
          = some (.str "8080") :=
  ⟨(listenPort_default_or_env (sampleLibs [] (.returnsPending true)) [] (by decide)).1
      (by decide),
    (listenPort_default_or_env (sampleLibs [] (.returnsPending true)) [("PORT", "8080")]
      (by decide)).2 "8080" (by decide) (by decide)⟩

/-- C9: the port follows JavaScript truthiness of the environment string. In
every run that reaches `app.listen`, a non-empty `PORT` is passed to
`app.listen` as the very string read, whatever its text, and a `PORT` bound to
the empty string yields the number 5000, the same argument and the same
listening message as a run in which `PORT` is absent. -/
theorem port_follows_truthiness (L : Libs) (env0 : Env)
    (h : L.connectDB (L.dotenvConfig env0) ≠ .throws) :
    (∀ v, (L.dotenvConfig env0).lookup "PORT" = some v → v ≠ "" →
        (bootstrap L env0).listenPort = some (.str v)
          ∧ Event.listenCalled (.str v) ∈ (bootstrap L env0).trace
          ∧ ∀ port, Event.listenCalled port ∈ (bootstrap L env0).trace → port = .str v)
      ∧ ((L.dotenvConfig env0).lookup "PORT" = some ""
            ∨ (L.dotenvConfig env0).lookup "PORT" = none →
        (bootstrap L env0).listenPort = some (.num 5000)
          ∧ Event.listenCalled (.num 5000) ∈ (bootstrap L env0).trace
          ∧ (bootstrap L env0).onListening = some "Server running on port 5000") := by
  have key : ∀ port, PORT (L.dotenvConfig env0) = port →
      (bootstrap L env0).listenPort = some port
        ∧ Event.listenCalled port ∈ (bootstrap L env0).trace
        ∧ (∀ q, Event.listenCalled q ∈ (bootstrap L env0).trace → q = port)
        ∧ (bootstrap L env0).onListening = some ("Server running on port " ++ port.render) := by
    intro port hp
    cases hc : L.connectDB (L.dotenvConfig env0) with
    | throws => exact absurd hc h
    | returnsConnected =>
      rw [bootstrap_returnsConnected L env0 hc, hp]
      simp [openingTrace, closingTrace, hp]
    | returnsFailed =>
      rw [bootstrap_returnsFailed L env0 hc, hp]
      simp [openingTrace, closingTrace, hp]
    | returnsPending ok =>
      rw [bootstrap_returnsPending L env0 ok hc, hp]
      cases ok <;> simp [openingTrace, closingTrace, hp]
  constructor
  · intro v hv hne
    have := key (.str v) ((PORT_cases _).2.2 v hv hne)
    exact ⟨this.1, this.2.1, this.2.2.1⟩
  · intro hv
    have hsel : PORT (L.dotenvConfig env0) = .num 5000 := by
      rcases hv with hv | hv
      · exact (PORT_cases _).2.1 hv
      · exact (PORT_cases _).1 hv
    have := key (.num 5000) hsel
    exact ⟨this.1, this.2.1, by rw [this.2.2.2]; decide⟩

/-- C9 (witness): `PORT=0` and `PORT=eighty` reach `app.listen` as those
strings, and `PORT=` (empty) gives 5000. -/
theorem port_follows_truthiness_witness :
    (bootstrap (sampleLibs [] (.returnsPending true)) [("PORT", "0")]).listenPort
        = some (.str "0")
      ∧ (bootstrap (sampleLibs [] (.returnsPending true)) [("PORT", "eighty")]).listenPort
        = some (.str "eighty")
      ∧ (bootstrap (sampleLibs [] (.returnsPending true)) [("PORT", "")]).listenPort
        = some (.num 5000) :=
  ⟨((port_follows_truthiness (sampleLibs [] (.returnsPending true)) [("PORT", "0")]
      (by decide)).1 "0" (by decide) (by decide)).1,
    ((port_follows_truthiness (sampleLibs [] (.returnsPending true)) [("PORT", "eighty")]
      (by decide)).1 "eighty" (by decide) (by decide)).1,
    ((port_follows_truthiness (sampleLibs [] (.returnsPending true)) [("PORT", "")]
      (by decide)).2 (Or.inl (by decide))).1⟩

/-- C10: every run starts with the five `require`s, evaluated under the
environment the process was started with, then `dotenv.config()`, then
`express()`, then the call of `connectDB` under the environment that
`dotenv.config()` produced; `PORT` is read only later, from that same
environment, and it is read in every run in which `connectDB()` returns. -/
theorem dotenv_before_connect_and_port (L : Libs) (env0 : Env) :
    ∃ rest, (bootstrap L env0).trace =
        [ .required "express" env0, .required "cors" env0, .required "dotenv" env0,
          .required "./src/config/db" env0, .required "./src/routes/items" env0,
          .dotenvConfig, .expressCreated, .connectCalled (L.dotenvConfig env0) ] ++ rest
      ∧ (∀ env port, Event.portRead env port ∈ (bootstrap L env0).trace →
          Event.portRead env port ∈ rest
            ∧ env = L.dotenvConfig env0 ∧ port = PORT (L.dotenvConfig env0))
      ∧ (L.connectDB (L.dotenvConfig env0) ≠ .throws →
          Event.portRead (L.dotenvConfig env0) (PORT (L.dotenvConfig env0)) ∈ rest)
      ∧ (∀ e ∈ rest, e ≠ Event.dotenvConfig ∧ ∀ m env, e ≠ Event.required m env) := by
  cases hc : L.connectDB (L.dotenvConfig env0) with
  | throws =>
    rw [bootstrap_throws L env0 hc]
    refine ⟨_, rfl, ?_, ?_, ?_⟩
    · intro env port hmem
      simp [openingTrace] at hmem
    · intro hne; exact absurd rfl hne
    · intro e he
      simp at he
      rcases he with rfl | rfl <;> simp
  | returnsConnected =>
    rw [bootstrap_returnsConnected L env0 hc]
    refine ⟨_, List.append_assoc _ _ _, ?_, ?_, ?_⟩
    · intro env port hmem
      simp [openingTrace, closingTrace] at hmem
      simp [closingTrace, hmem]
    · intro _; simp [closingTrace]
    · intro e he
      simp [closingTrace] at he
      rcases he with rfl | rfl | rfl | rfl | rfl | rfl <;> simp
  | returnsFailed =>
    rw [bootstrap_returnsFailed L env0 hc]
    refine ⟨_, List.append_assoc _ _ _, ?_, ?_, ?_⟩
    · intro env port hmem
      simp [openingTrace, closingTrace] at hmem
      simp [closingTrace, hmem]
    · intro _; simp [closingTrace]
    · intro e he
      simp [closingTrace] at he
      rcases he with rfl | rfl | rfl | rfl | rfl | rfl <;> simp
  | returnsPending ok =>
    rw [bootstrap_returnsPending L env0 ok hc]
    refine ⟨_, List.append_assoc _ _ _, ?_, ?_, ?_⟩
    · intro env port hmem
      cases ok <;> simp [openingTrace, closingTrace] at hmem <;> simp [closingTrace, hmem]
    · intro _; simp [closingTrace]
    · intro e he
      cases ok <;> simp [closingTrace] at he <;>
        rcases he with rfl | rfl | rfl | rfl | rfl | rfl <;> simp

/-- C10 (witness): with `PORT=3000` only in the `.env` file, the modules are
loaded under the empty environment while `connectDB` is called, and the port
chosen, under the environment holding `PORT`. -/
theorem dotenv_before_connect_and_port_witness :
    ∃ rest, (bootstrap (sampleLibs [("PORT", "3000")] (.returnsPending true)) []).trace =
        [ .required "express" [], .required "cors" [], .required "dotenv" [],
          .required "./src/config/db" [], .required "./src/routes/items" [],
          .dotenvConfig, .expressCreated, .connectCalled [("PORT", "3000")] ] ++ rest
      ∧ Event.portRead [("PORT", "3000")] (.str "3000") ∈ rest := by
  obtain ⟨rest, h1, _, h3, _⟩ :=
    dotenv_before_connect_and_port (sampleLibs [("PORT", "3000")] (.returnsPending true)) []
  exact ⟨rest, h1, h3 (by decide)⟩

/-! ## The middleware stack -/

/-- Dispatch through the registered stack, spelled out layer by layer. -/
theorem dispatch_registered (L : Libs) (req : Request) (res : Response) :
    dispatch L registeredStack req res =
      match L.cors none req res with
      | .done s1 => ([(.cors none, req)], s1)
      | .next r1 s1 =>
        match L.json r1 s1 with
        | .done s2 => ([(.cors none, req), (.json, r1)], s2)
        | .next r2 s2 =>
          if mountMatches "/api/items" r2.path then
            match L.itemsRoutes r2 s2 with
            | .done s3 => ([(.cors none, req), (.json, r1), (.itemsRoutes, r2)], s3)
            | .next _ s3 =>
              ([(.cors none, req), (.json, r1), (.itemsRoutes, r2)], finalHandler s3)
          else ([(.cors none, req), (.json, r1)], finalHandler s2) := by
  have hroot : ∀ q : String, mountMatches "/" q = true := by
    intro q; simp [mountMatches]
  simp only [registeredStack, dispatch, hroot, if_true, Libs.run]
  cases L.cors none req res with
  | done s1 => rfl
  | next r1 s1 =>
    simp only []
    cases L.json r1 s1 with
    | done s2 => rfl
    | next r2 s2 =>
      simp only []
      by_cases hm : mountMatches "/api/items" r2.path = true
      · simp only [hm, if_true]
        cases L.itemsRoutes r2 s2 <;> rfl
      · simp only [hm]
        rfl

/-- The mount test of the items router, spelled out on the characters of the path. -/
theorem mountMatches_items (path : String) :
    mountMatches "/api/items" path = true ↔
      (lowerPath path = "/api/items".toList
        ∨ "/api/items/".toList.isPrefixOf (lowerPath path) = true) := by
  have h1 : lowerPath "/api/items" = "/api/items".toList := by decide
  have h2 : "/api/items".toList ++ ['/'] = "/api/items/".toList := by decide
  have h3 : ("/api/items" : String) ≠ "/" := by decide
  unfold mountMatches
  rw [if_neg h3, h1, h2]
  simp

/-- When the items router is given a request: exactly when both global
middleware hand the request on and the mount test accepts the path. -/
theorem router_visited_iff (L : Libs) (req : Request) (res : Response) :
    Handler.itemsRoutes ∈ (dispatch L registeredStack req res).1.map Prod.fst ↔
      ∃ r1 s1 r2 s2, L.cors none req res = .next r1 s1 ∧ L.json r1 s1 = .next r2 s2
        ∧ mountMatches "/api/items" r2.path = true := by
  rw [dispatch_registered]
  cases h1 : L.cors none req res with
  | done s1 =>
    constructor
    · intro h; simp at h
    · rintro ⟨_, _, _, _, h, _⟩; exact absurd h (by simp)
  | next r1 s1 =>
    simp only []
    cases h2 : L.json r1 s1 with
    | done s2 =>
      constructor
      · intro h; simp at h
      · rintro ⟨a, b, _, _, ha, hb, _⟩
        injection ha with ha1 ha2
        subst ha1; subst ha2
        rw [h2] at hb
        exact absurd hb (by simp)
    | next r2 s2 =>
      simp only []
      by_cases hm : mountMatches "/api/items" r2.path = true
      · rw [if_pos hm]
        constructor
        · intro _; exact ⟨r1, s1, r2, s2, rfl, h2, hm⟩
        · intro _; cases L.itemsRoutes r2 s2 <;> simp
      · rw [if_neg hm]
        constructor
        · intro h; simp at h
        · rintro ⟨a, b, c, d, ha, hb, hc⟩
          injection ha with ha1 ha2
          subst ha1; subst ha2
          rw [h2] at hb
          injection hb with hb1 hb2
          subst hb1
          exact absurd hc hm

/-- Every request entering the registered stack is first given to `cors`. -/
theorem cors_runs_first (L : Libs) (req : Request) (res : Response) :
    ((dispatch L registeredStack req res).1.map Prod.fst).head? = some (.cors none) := by
  rw [dispatch_registered]
  cases L.cors none req res with
  | done s1 => rfl
  | next r1 s1 =>
    simp only []
    cases L.json r1 s1 with
    | done s2 => rfl
    | next r2 s2 =>
      simp only []
      split
      · cases L.itemsRoutes r2 s2 <;> rfl
      · rfl

/-- What the items router is given, and after which handlers. -/
theorem router_input_registered (L : Libs) (req r : Request) (res : Response)
    (h : ((dispatch L registeredStack req res).1.find?
      (fun hr => hr.1 = Handler.itemsRoutes)).map Prod.snd = some r) :
    ∃ r1 s1 s2, L.cors none req res = .next r1 s1 ∧ L.json r1 s1 = .next r s2
      ∧ (dispatch L registeredStack req res).1.map Prod.fst
          = [.cors none, .json, .itemsRoutes] := by
  rw [dispatch_registered] at h ⊢
  cases h1 : L.cors none req res with
  | done s1 => rw [h1] at h; simp [List.find?] at h
  | next r1 s1 =>
    rw [h1] at h
    simp only [] at h ⊢
    cases h2 : L.json r1 s1 with
    | done s2 => rw [h2] at h; simp [List.find?] at h
    | next r2 s2 =>
      rw [h2] at h
      simp only [] at h ⊢
      by_cases hm : mountMatches "/api/items" r2.path = true
      · rw [if_pos hm] at h ⊢
        cases h3 : L.itemsRoutes r2 s2 with
        | done s3 =>
          rw [h3] at h
          simp [List.find?] at h
          exact ⟨r1, s1, s2, rfl, by rw [h2, h], rfl⟩
        | next r3 s3 =>
          rw [h3] at h
          simp [List.find?] at h
          exact ⟨r1, s1, s2, rfl, by rw [h2, h], rfl⟩
      · rw [if_neg hm] at h
        simp [List.find?] at h

/-- C2 (counterexample): a request for `/API/ITEMS`, a path that is neither
`/api/items` nor below `/api/items/`, is dispatched to the items router; and a
preflight request, `OPTIONS /api/items`, is answered by `cors` and never
dispatched to the router although its path is `/api/items`. -/
theorem uppercase_path_reaches_router :
    (Handler.itemsRoutes ∈ visited (sampleLibs [] (.returnsPending true))
        (bootstrap (sampleLibs [] (.returnsPending true)) []) (plainRequest "GET" "/API/ITEMS")
      ∧ (plainRequest "GET" "/API/ITEMS").path ≠ "/api/items"
      ∧ "/api/items/".toList.isPrefixOf (plainRequest "GET" "/API/ITEMS").path.toList
          = false)
    ∧ (Handler.itemsRoutes ∉ visited (sampleLibs [] (.returnsPending true))
        (bootstrap (sampleLibs [] (.returnsPending true)) [])
        (plainRequest "OPTIONS" "/api/items")
      ∧ (plainRequest "OPTIONS" "/api/items").path = "/api/items") := by
  decide

/-- C2 (amended): in every run that reaches `app.listen` the stack holds the
two global middleware and, mounted at `/api/items`, the items router, the only
router; a request is dispatched to it exactly when `cors` and the body parser
both hand the request on and its path, compared without regard to letter case,
is `/api/items` or lies below `/api/items/`. -/
theorem items_router_mount (L : Libs) (env0 : Env)
    (h : L.connectDB (L.dotenvConfig env0) ≠ .throws) :
    (bootstrap L env0).stack
        = [("/", .cors none), ("/", .json), ("/api/items", .itemsRoutes)]
      ∧ ∀ req, (Handler.itemsRoutes ∈ visited L (bootstrap L env0) req ↔
          ∃ r1 s1 r2 s2, L.cors none req Response.fresh = .next r1 s1
            ∧ L.json r1 s1 = .next r2 s2
            ∧ (lowerPath r2.path = "/api/items".toList
                ∨ "/api/items/".toList.isPrefixOf (lowerPath r2.path) = true)) := by
  have hs := (bootstrap_returns L env0 h).2
  refine ⟨hs, ?_⟩
  intro req
  unfold visited
  rw [hs, router_visited_iff]
  constructor
  · rintro ⟨r1, s1, r2, s2, h1, h2, hm⟩
    exact ⟨r1, s1, r2, s2, h1, h2, (mountMatches_items _).1 hm⟩
  · rintro ⟨r1, s1, r2, s2, h1, h2, hm⟩
    exact ⟨r1, s1, r2, s2, h1, h2, (mountMatches_items _).2 hm⟩

/-- C2 (witness): `GET /api/items/42` is dispatched to the items router. -/
theorem items_router_mount_witness :
    Handler.itemsRoutes ∈ visited (sampleLibs [] (.returnsPending true))
      (bootstrap (sampleLibs [] (.returnsPending true)) [])
      (plainRequest "GET" "/api/items/42") :=
  ((items_router_mount (sampleLibs [] (.returnsPending true)) [] (by decide)).2
    (plainRequest "GET" "/api/items/42")).2
    ⟨plainRequest "GET" "/api/items/42",
      ⟨200, [("Access-Control-Allow-Origin", "*")], ""⟩,
      plainRequest "GET" "/api/items/42",
      ⟨200, [("Access-Control-Allow-Origin", "*")], ""⟩,
      by decide, by decide, Or.inr (by decide)⟩

/-- C4: whenever a request reaches the items router, the stack is the one in
which `cors` and the JSON body parser were registered before the router, both on
every path; `cors` ran on the request first, the body parser ran on what `cors`
handed on, and the router is given what the body parser handed on. -/
theorem middleware_before_router (L : Libs) (env0 : Env) (req r : Request)
    (h : routerInput L (bootstrap L env0) req = some r) :
    (bootstrap L env0).stack
        = [("/", .cors none), ("/", .json), ("/api/items", .itemsRoutes)]
      ∧ (∃ r1 s1 s2, L.cors none req Response.fresh = .next r1 s1
          ∧ L.json r1 s1 = .next r s2)
      ∧ visited L (bootstrap L env0) req = [.cors none, .json, .itemsRoutes] := by
  by_cases hc : L.connectDB (L.dotenvConfig env0) = .throws
  · rw [routerInput, bootstrap_throws L env0 hc] at h
    simp [dispatch, List.find?] at h
  · have hs := (bootstrap_returns L env0 hc).2
    unfold routerInput at h
    unfold visited
    rw [hs] at h ⊢
    obtain ⟨r1, s1, s2, h1, h2, hv⟩ := router_input_registered L req r _ h
    exact ⟨rfl, ⟨r1, s1, s2, h1, h2⟩, hv⟩

/-- C4 (witness): `GET /api/items` passes `cors`, then the body parser, then
reaches the router. -/
theorem middleware_before_router_witness :
    visited (sampleLibs [] (.returnsPending true))
      (bootstrap (sampleLibs [] (.returnsPending true)) []) (plainRequest "GET" "/api/items")
      = [.cors none, .json, .itemsRoutes] :=
  (middleware_before_router (sampleLibs [] (.returnsPending true)) []
    (plainRequest "GET" "/api/items") (plainRequest "GET" "/api/items") (by decide)).2.2

/-- C5: in every run that reaches `app.listen`, `cors` is built without options
and registered on the mount `/`, which accepts every path, so it is the first
handler to run on every request; and the published `cors` without options
answers any request, whatever origin it names, with
`Access-Control-Allow-Origin: *`. -/
theorem cors_unrestricted (L : Libs) (env0 : Env)
    (h : L.connectDB (L.dotenvConfig env0) ≠ .throws) (hcors : L.cors = corsPackage) :
    (bootstrap L env0).stack.head? = some ("/", .cors none)
      ∧ ∀ req : Request, mountMatches "/" req.path = true
          ∧ (visited L (bootstrap L env0) req).head? = some (.cors none)
          ∧ (L.run (.cors none) req Response.fresh).response.headers.lookup
              "Access-Control-Allow-Origin" = some "*" := by
  have hs := (bootstrap_returns L env0 h).2
  refine ⟨by rw [hs]; rfl, ?_⟩
  intro req
  refine ⟨by simp [mountMatches], ?_, ?_⟩
  · unfold visited
    rw [hs]
    exact cors_runs_first L req _
  · simp only [Libs.run, hcors, corsPackage, Option.getD, Response.fresh]
    by_cases hm : req.method = "OPTIONS"
    · simp [hm, MwResult.response, List.lookup]
    · simp [hm, MwResult.response, List.lookup]

/-- C5 (witness): a `DELETE` request naming the origin `https://elsewhere.example`
is answered with `Access-Control-Allow-Origin: *`. -/
theorem cors_unrestricted_witness :
    ((sampleLibs [] (.returnsPending true)).run (.cors none)
        ⟨"DELETE", "/api/items/7", [("Origin", "https://elsewhere.example")], ""⟩
        Response.fresh).response.headers.lookup "Access-Control-Allow-Origin" = some "*" :=
  ((cors_unrestricted (sampleLibs [] (.returnsPending true)) [] (by decide) rfl).2
    ⟨"DELETE", "/api/items/7", [("Origin", "https://elsewhere.example")], ""⟩).2.2

end Server

/-!
# Properties of the items resource handler
-/

namespace Items

/-! ## Identifiers in the store -/

theorem sound_empty (sch : IdScheme) : Store.Sound sch Store.empty := by
  intro it hit
  simp [Store.empty] at hit

theorem sound_handle (sch : IdScheme) (op : Op) (s : Store) (hs : Store.Sound sch s) :
    Store.Sound sch (handle sch op s).store := by
  cases op with
  | list =>
    simp only [handle]
    split <;> exact hs
  | get id =>
    simp only [handle]
    split
    · exact hs
    · split
      · exact hs
      · split <;> exact hs
  | create body =>
    simp only [handle]
    split
    · exact hs
    · split
      · exact hs
      · intro it hit
        simp only [List.mem_append, List.mem_singleton] at hit
        rcases hit with hit | rfl
        · obtain ⟨k, hk, hid⟩ := hs it hit
          exact ⟨k, Nat.lt_succ_of_lt hk, hid⟩
        · exact ⟨s.issued, Nat.lt_succ_self _, rfl⟩
  | update id body =>
    simp only [handle]
    split
    · exact hs
    · split
      · exact hs
      · split
        · intro it hit
          simp only [List.mem_map] at hit
          obtain ⟨x, hx, rfl⟩ := hit
          obtain ⟨k, hk, hid⟩ := hs x hx
          refine ⟨k, hk, ?_⟩
          split <;> exact hid
        · exact hs
  | delete id =>
    simp only [handle]
    split
    · exact hs
    · split
      · exact hs
      · split
        · intro it hit
          exact hs it (List.mem_of_mem_filter hit)
        · exact hs

theorem sound_step (sch : IdScheme) (s : Store) (st : Step) (hs : Store.Sound sch s) :
    Store.Sound sch (Store.step sch s st) := by
  cases st with
  | request op => exact sound_handle sch op s hs
  | outage => exact hs
  | recovery => exact hs

theorem sound_foldl (sch : IdScheme) (history : List Step) (s : Store)
    (hs : Store.Sound sch s) : Store.Sound sch (history.foldl (Store.step sch) s) := by
  induction history generalizing s with
  | nil => exact hs
  | cons st rest ih => exact ih _ (sound_step sch s st hs)

/-- The store reached by any history holds only identifiers assigned earlier. -/
theorem sound_after (sch : IdScheme) (history : List Step) :
    Store.Sound sch (Store.after sch history) :=
  sound_foldl sch history _ (sound_empty sch)

/-- In a sound store, the Item just inserted is the one found under its identifier. -/
theorem find_inserted (sch : IdScheme) (s : Store) (hs : Store.Sound sch s) (body : Fields) :
    (s.items ++ [(⟨sch.assign s.issued, body⟩ : Item)]).find?
        (fun it => it.id = sch.assign s.issued)
      = some ⟨sch.assign s.issued, body⟩ := by
  have hnone : s.items.find? (fun it => it.id = sch.assign s.issued) = none := by
    rw [List.find?_eq_none]
    intro it hit hid
    obtain ⟨k, hk, hk2⟩ := hs it hit
    have heq : it.id = sch.assign s.issued := by simpa using hid
    have := sch.assign_injective k s.issued (hk2.symm.trans heq)
    omega
  rw [List.find?_append, hnone]
  simp [List.find?]

/-! ## Validation and the round trip -/

/-- C7: whatever the state of the store, Get, Update and Delete with a
structurally invalid identifier, and Create without the required field `name`,
answer 400, issue no persistence call and leave the store as it was. -/
theorem validation_precedes_store (sch : IdScheme) (s : Store) :
    (∀ id body, sch.wellFormed id = false →
        ((handle sch (.get id) s).status = 400 ∧ (handle sch (.get id) s).calls = []
          ∧ (handle sch (.get id) s).store = s)
        ∧ ((handle sch (.update id body) s).status = 400
          ∧ (handle sch (.update id body) s).calls = []
          ∧ (handle sch (.update id body) s).store = s)
        ∧ ((handle sch (.delete id) s).status = 400 ∧ (handle sch (.delete id) s).calls = []
          ∧ (handle sch (.delete id) s).store = s))
      ∧ (∀ body, body.lookup "name" = none →
        (handle sch (.create body) s).status = 400 ∧ (handle sch (.create body) s).calls = []
          ∧ (handle sch (.create body) s).store = s) := by
  constructor
  · intro id body hid
    simp [handle, hid]
  · intro body hbody
    simp [handle, hasRequired, hbody]

/-- C7 (witness): with identifiers that are runs of `1`, `GET`, `PUT` and
`DELETE` on the identifier `not-an-id`, and `POST` of an empty body, answer
400 without a persistence call, here with the store unreachable. -/
theorem validation_precedes_store_witness :
    ((handle tallyIds (.get "not-an-id") ⟨false, [], 0⟩).status = 400
        ∧ (handle tallyIds (.get "not-an-id") ⟨false, [], 0⟩).calls = []
        ∧ (handle tallyIds (.get "not-an-id") ⟨false, [], 0⟩).store = ⟨false, [], 0⟩)
      ∧ ((handle tallyIds (.create []) ⟨false, [], 0⟩).status = 400
        ∧ (handle tallyIds (.create []) ⟨false, [], 0⟩).calls = []
        ∧ (handle tallyIds (.create []) ⟨false, [], 0⟩).store = ⟨false, [], 0⟩) :=
  ⟨((validation_precedes_store tallyIds ⟨false, [], 0⟩).1 "not-an-id" [] (by decide)).1,
    (validation_precedes_store tallyIds ⟨false, [], 0⟩).2 [] (by decide)⟩

/-- C8: after any history, for every payload P carrying the required field,
Create answers 201 whenever the store is reachable, and whenever Create answers
201 its body is P with the identifier just assigned, and Get of that identifier
on the resulting store answers 200 with the same Item, P plus its identifier. -/
theorem create_then_get (sch : IdScheme) (history : List Step) (P : Fields)
    (hP : hasRequired P = true) :
    ((Store.after sch history).reachable = true →
        (handle sch (.create P) (Store.after sch history)).status = 201)
      ∧ ((handle sch (.create P) (Store.after sch history)).status = 201 →
        (handle sch (.create P) (Store.after sch history)).body
            = .item ⟨sch.assign (Store.after sch history).issued, P⟩
          ∧ (handle sch (.get (sch.assign (Store.after sch history).issued))
              (handle sch (.create P) (Store.after sch history)).store).status = 200
          ∧ (handle sch (.get (sch.assign (Store.after sch history).issued))
              (handle sch (.create P) (Store.after sch history)).store).body
            = .item ⟨sch.assign (Store.after sch history).issued, P⟩) := by
  have hs := sound_after sch history
  generalize Store.after sch history = s at hs ⊢
  cases hr : s.reachable with
  | false =>
    constructor
    · intro h; exact absurd h (by simp)
    · intro h
      simp [handle, hP, hr] at h
  | true =>
    have hf := find_inserted sch s hs P
    constructor
    · intro _
      simp [handle, hP, hr]
    · intro _
      simp [handle, hP, hr, sch.assign_wellFormed, Store.find, hf]

/-- C8 (witness): after one Item was created and the store went through an
outage, `POST {"name":"Widget"}` answers 201 with identifier `11`, and
`GET` of `11` answers 200 with that Item. -/
theorem create_then_get_witness :
    (handle tallyIds (.create [("name", .str "Widget")])
        (Store.after tallyIds
          [.request (.create [("name", .str "Gadget")]), .outage, .recovery])).status = 201
      ∧ (handle tallyIds (.get "11")
          (handle tallyIds (.create [("name", .str "Widget")])
            (Store.after tallyIds
              [.request (.create [("name", .str "Gadget")]), .outage, .recovery])).store).body
        = .item ⟨"11", [("name", .str "Widget")]⟩ :=
  ⟨(create_then_get tallyIds
      [.request (.create [("name", .str "Gadget")]), .outage, .recovery]
      [("name", .str "Widget")] (by decide)).1 (by decide),
    ((create_then_get tallyIds
      [.request (.create [("name", .str "Gadget")]), .outage, .recovery]
      [("name", .str "Widget")] (by decide)).2 (by decide)).2.2⟩

end Items
